import Mathlib

/-!
Shallow embedding of the repository's root view component
(`src/App.tsx`) and proofs of the specification's claims about it.

The source file is:

  function App() {
    return (
      <div className="flex min-h-screen items-center justify-center bg-slate-50">
        <div className="text-center">
          <h1 className="text-4xl font-bold text-slate-900">React + Vite + TypeScript</h1>
          <p className="mt-4 text-slate-600">Ready to go!</p>
        </div>
      </div>
    );
  }

We model a JSX element as a node carrying a tag name, a list of props
(name/value pairs; in the source every prop is a string-valued
attribute), and a list of child nodes; text content is a text node.
-/

/-- A node of the rendered tree: either an element with a tag, a list of
string-valued props and children, or a text node. -/
inductive Node where
  | elem (tag : String) (props : List (String × String)) (children : List Node) : Node
  | text (s : String) : Node

/-- The root view component. A direct transcription of the JSX returned
by `function App()` in `src/App.tsx`: it takes no arguments (modelled as
`Unit`) and returns the element tree. -/
def App : Unit → Node := fun _ =>
  Node.elem "div" [("className", "flex min-h-screen items-center justify-center bg-slate-50")]
    [ Node.elem "div" [("className", "text-center")]
        [ Node.elem "h1" [("className", "text-4xl font-bold text-slate-900")]
            [ Node.text "React + Vite + TypeScript" ],
          Node.elem "p" [("className", "mt-4 text-slate-600")]
            [ Node.text "Ready to go!" ] ] ]

/-- The body of `App` contains no statement that reads or writes any
state outside the function, so its state-passing embedding threads the
ambient state through unchanged: calling the component in state `s`
yields the rendered tree and leaves `s` as it was. -/
def AppStateful {σ : Type} (s : σ) : Node × σ := (App (), s)

mutual
/-- Does some node of the tree satisfy the boolean predicate? -/
def anyNode (p : Node → Bool) : Node → Bool
  | Node.text s => p (Node.text s)
  | Node.elem t a c => p (Node.elem t a c) || anyNodes p c
/-- Does some node of some tree in the list satisfy the predicate? -/
def anyNodes (p : Node → Bool) : List Node → Bool
  | [] => false
  | n :: ns => anyNode p n || anyNodes p ns
end

mutual
/-- Does every node of the tree satisfy the boolean predicate? -/
def allNode (p : Node → Bool) : Node → Bool
  | Node.text s => p (Node.text s)
  | Node.elem t a c => p (Node.elem t a c) && allNodes p c
/-- Does every node of every tree in the list satisfy the predicate? -/
def allNodes (p : Node → Bool) : List Node → Bool
  | [] => true
  | n :: ns => allNode p n && allNodes p ns
end

mutual
/-- Number of nodes of the tree satisfying the predicate. -/
def countNode (p : Node → Bool) : Node → Nat
  | Node.text s => if p (Node.text s) then 1 else 0
  | Node.elem t a c => (if p (Node.elem t a c) then 1 else 0) + countNodes p c
/-- Number of nodes across a list of trees satisfying the predicate. -/
def countNodes (p : Node → Bool) : List Node → Nat
  | [] => 0
  | n :: ns => countNode p n + countNodes p ns
end

mutual
/-- The concatenated text content of a tree, in document order (the DOM
textContent of the node). -/
def textContent : Node → String
  | Node.text s => s
  | Node.elem _ _ c => textContentList c
/-- The concatenated text content of a list of trees. -/
def textContentList : List Node → String
  | [] => ""
  | n :: ns => textContent n ++ textContentList ns
end

/-- Is the node a heading element (any of the six HTML heading levels)? -/
def isHeading : Node → Bool
  | Node.elem t _ _ =>
      t == "h1" || t == "h2" || t == "h3" || t == "h4" || t == "h5" || t == "h6"
  | Node.text _ => false

/-- Is the node a paragraph element? -/
def isParagraph : Node → Bool
  | Node.elem t _ _ => t == "p"
  | Node.text _ => false

/-- Is the node an element with the given tag? -/
def hasTag (t : String) : Node → Bool
  | Node.elem t' _ _ => t' == t
  | Node.text _ => false

/-- Does a prop name denote a React event handler? React event-handler
props are camelCase names beginning with `on` (onClick, onChange, ...). -/
def isEventHandlerName (s : String) : Bool := s.data.take 2 == ['o', 'n']

/-- The class attribute string of an element node, if present. -/
def classOf : Node → Option String
  | Node.elem _ props _ =>
      (props.find? (fun pr => pr.fst == "className")).map Prod.snd
  | Node.text _ => none


/-- C1: every invocation of the no-argument render operation App returns
a tree containing a heading element whose text content is exactly the
literal string "React + Vite + TypeScript". -/
theorem App_contains_heading_title (u : Unit) :
    anyNode (fun n => isHeading n && (textContent n == "React + Vite + TypeScript"))
      (App u) = true := rfl

/-- C2: every invocation of App returns a tree containing a paragraph
element whose text content is exactly the literal string "Ready to go!". -/
theorem App_contains_paragraph_subtitle (u : Unit) :
    anyNode (fun n => isParagraph n && (textContent n == "Ready to go!"))
      (App u) = true := rfl

/-- C3: any two invocations of App return structurally identical trees:
the render is deterministic, with no hidden state between renders. -/
theorem App_deterministic (u v : Unit) : App u = App v := rfl

/-- C4: App returns a fixed tree of nested containers: one outer
container div whose only child is an inner block div, and the inner
block contains a heading string followed by a paragraph string. -/
theorem App_fixed_nested_tree (u : Unit) :
    ∃ outerClass innerClass headingClass paraClass : String,
      App u =
        Node.elem "div" [("className", outerClass)]
          [ Node.elem "div" [("className", innerClass)]
              [ Node.elem "h1" [("className", headingClass)]
                  [ Node.text "React + Vite + TypeScript" ],
                Node.elem "p" [("className", paraClass)]
                  [ Node.text "Ready to go!" ] ] ] :=
  ⟨_, _, _, _, rfl⟩

/-- C5: App is a total function of no inputs: it lands in the plain tree
type Node (a fallible operation would be embedded into Option or Except,
and the body of App contains none), so every invocation returns a tree
and never reaches an error outcome. -/
theorem App_total (u : Unit) : ∃ t : Node, App u = t := ⟨App (), rfl⟩

/-- C6: App has no observable side effects: in the state-passing
embedding, running App in any ambient state s yields the rendered tree
and leaves s exactly as it was. -/
theorem App_no_side_effects {σ : Type} (s : σ) :
    (AppStateful s).1 = App () ∧ (AppStateful s).2 = s := ⟨rfl, rfl⟩

/-- C7: the presentational attributes are fixed constants: on every
invocation App returns exactly the tree in which the outer container,
inner block, heading and paragraph carry their respective literal
class-attribute strings, the same on every render. -/
theorem App_fixed_class_attributes (u : Unit) :
    App u =
      Node.elem "div"
        [("className", "flex min-h-screen items-center justify-center bg-slate-50")]
        [ Node.elem "div" [("className", "text-center")]
            [ Node.elem "h1" [("className", "text-4xl font-bold text-slate-900")]
                [ Node.text "React + Vite + TypeScript" ],
              Node.elem "p" [("className", "mt-4 text-slate-600")]
                [ Node.text "Ready to go!" ] ] ] := rfl

/-- C8: the tree returned by App contains exactly one heading element
and exactly one paragraph element, and they occur as siblings of the
inner block with the heading first. -/
theorem App_one_heading_one_paragraph (u : Unit) :
    countNode isHeading (App u) = 1 ∧ countNode isParagraph (App u) = 1 ∧
      ∃ (outerProps innerProps : List (String × String)) (h p : Node),
        App u = Node.elem "div" outerProps [Node.elem "div" innerProps [h, p]] ∧
          isHeading h = true ∧ isParagraph p = true :=
  ⟨rfl, rfl, _, _, _, _, rfl, rfl, rfl⟩

/-- C9: the heading in the tree returned by App is a level-1 heading:
there is exactly one h1 element, and every heading node in the tree has
tag h1 (no heading of any other level occurs). -/
theorem App_heading_is_h1 (u : Unit) :
    countNode (hasTag "h1") (App u) = 1 ∧
      allNode (fun n => !(isHeading n) || hasTag "h1" n) (App u) = true :=
  ⟨rfl, rfl⟩

/-- C10: every element node in the tree returned by App carries the
class attribute as its sole prop and no event-handler prop, so the
rendered output is inert. -/
theorem App_inert_no_event_handlers (u : Unit) :
    allNode (fun n =>
      match n with
      | Node.text _ => true
      | Node.elem _ props _ =>
          props.all (fun pr => pr.fst == "className" && !(isEventHandlerName pr.fst)) &&
            props.length == 1) (App u) = true := rfl
